import Mathlib

/-!
Verification of the NLP Query Engine's schema-discovery and SQL-synthesis core
(`backend/api/services/schema_discovery.py` and `backend/api/services/query_engine.py`).

Modelling conventions:
* Python strings are modelled as `List Char` (`Str`); `a in b` (substring test)
  is `substr a b`; `str.lower()` is `toLowerStr` (ASCII case folding, which agrees
  with Python on the ASCII strings the services manipulate).
* Python floats: every score increment in the source is a multiple of 0.1
  (0.8, 0.7, 0.6, 0.5, 0.4, 0.3, 0.2), so relevance scores are represented
  exactly as integer numbers of tenths (`Int`): stored value 8 means 0.8, the
  clamp `min(relevance, 1.0)` becomes `min r 10`, and the thresholds 0.2 / 0.1
  become 2 / 1.  The confidence combination, which divides by list lengths,
  is computed in `ℚ` from the tenths (value `r` enters as `r / 10`).
* Python dicts are modelled as association lists (`List (key × value)`) in
  insertion order; the dicts built by this code never repeat a key.
* `list.sort(key=..., reverse=True)` is a stable descending sort; it is
  modelled by the stable insertion sort `sortDesc` below (any two stable
  sorts by the same key agree).
* Database I/O (`sqlite3` cursor calls) is modelled by oracles returning
  `Except Unit` results, so that per-call failure behaviour can be stated.
-/

/-- Python strings as explicit character lists (so that everything computes
by kernel reduction). -/
abbrev Str := List Char

/-- Turn a Lean string literal into the `Str` representation. -/
def str (s : String) : Str := s.data

/-- Python's substring test `needle in haystack`. -/
def substr (needle : Str) : Str → Bool
  | [] => needle.isEmpty
  | c :: rest => needle.isPrefixOf (c :: rest) || substr needle rest

/-- ASCII lower-casing of one character, as `str.lower()` acts on ASCII. -/
def lowerChar (c : Char) : Char :=
  if 65 ≤ c.toNat ∧ c.toNat ≤ 90 then Char.ofNat (c.toNat + 32) else c

/-- Python's `s.lower()` on ASCII strings. -/
def toLowerStr (s : Str) : Str := s.map lowerChar

/-- A single-quote character, used when assembling SQL literals. -/
def squote : Str := [Char.ofNat 39]

/-! ## Schema model (`schema_discovery.py`)

The dict shapes produced by `SQLiteSchemaDiscovery` become records. -/

/-- One entry of the `columns` list built by `_analyze_table` from
`PRAGMA table_info` (keys `name`, `type`, `not_null`, `default_value`,
`primary_key`). -/
structure ColumnInfo where
  name : Str
  type : Str
  not_null : Bool
  default_value : Option Str
  primary_key : Bool
deriving Repr, DecidableEq

/-- One entry of the `foreign_keys` list built from `PRAGMA foreign_key_list`
(keys `column`, `referenced_table`, `referenced_column`). -/
structure ForeignKeyRef where
  column : Str
  referenced_table : Str
  referenced_column : Str
deriving Repr, DecidableEq

/-- A sample row: a dict of column name to (rendered) value.  The services
never inspect sample values, only pass the rows through. -/
abbrev Row := List (Str × Str)

/-- The per-table dict produced by `_analyze_table`, plus the `purpose` key
that `analyze_database` adds immediately afterwards (`_analyze_table` itself
leaves `purpose` empty). -/
structure TableData where
  columns : List ColumnInfo
  primary_keys : List Str
  foreign_keys : List ForeignKeyRef
  sample_data : List Row
  row_count : Nat
  column_purposes : List (Str × Str)
  purpose : Str
deriving Repr, DecidableEq

/-- The static configuration returned by `_analyze_naming_patterns` (whose
`tables` argument is unused in the source). -/
structure NamingPatterns where
  column_synonyms : List (Str × List Str)
  table_synonyms : List (Str × List Str)
  query_patterns : List (Str × List Str)
deriving Repr, DecidableEq

/-- The literal dictionary built by `_analyze_naming_patterns`. -/
def _analyze_naming_patterns : NamingPatterns where
  column_synonyms :=
    [ (str "employee_id", [str "emp_id", str "staff_id", str "worker_id", str "personnel_id", str "user_id"])
    , (str "first_name", [str "fname", str "given_name", str "forename", str "name"])
    , (str "last_name", [str "lname", str "surname", str "family_name"])
    , (str "full_name", [str "name", str "employee_name", str "person_name"])
    , (str "salary", [str "wage", str "pay", str "compensation", str "income", str "earnings"])
    , (str "department", [str "dept", str "division", str "unit", str "section", str "team"])
    , (str "hire_date", [str "start_date", str "join_date", str "employment_date", str "hired"])
    , (str "email", [str "email_address", str "mail", str "e_mail", str "contact_email"])
    , (str "phone", [str "phone_number", str "telephone", str "mobile", str "contact_number"])
    , (str "address", [str "location", str "street_address", str "home_address"])
    , (str "position", [str "job_title", str "role", str "designation", str "title"])
    , (str "manager", [str "supervisor", str "boss", str "lead", str "manager_id"])
    , (str "status", [str "state", str "condition", str "active", str "inactive"]) ]
  table_synonyms :=
    [ (str "employees", [str "employee", str "emp", str "staff", str "personnel", str "worker", str "people"])
    , (str "departments", [str "department", str "dept", str "division", str "unit", str "team"])
    , (str "salaries", [str "salary", str "compensation", str "pay", str "wage", str "payroll"])
    , (str "projects", [str "project", str "assignment", str "task", str "work"])
    , (str "orders", [str "order", str "purchase", str "sale", str "transaction"])
    , (str "customers", [str "customer", str "client", str "contact", str "user"])
    , (str "products", [str "product", str "item", str "inventory", str "stock"]) ]
  query_patterns :=
    [ (str "count", [str "how many", str "number of", str "count of", str "total"])
    , (str "average", [str "average", str "avg", str "mean"])
    , (str "maximum", [str "highest", str "max", str "maximum", str "top", str "largest"])
    , (str "minimum", [str "lowest", str "min", str "minimum", str "bottom", str "smallest"])
    , (str "list", [str "show", str "display", str "list", str "get", str "find", str "all"])
    , (str "filter", [str "where", str "with", str "having", str "that have"])
    , (str "group", [str "by department", str "by role", str "group by", str "grouped by"]) ]

/-- `_detect_table_purpose`: ordered keyword tests over the lower-cased table
name (the `table_info` argument of the source function is unused). -/
def _detect_table_purpose (table_name : Str) : Str :=
  let name_lower := toLowerStr table_name
  if [str "employee", str "emp", str "staff", str "personnel", str "worker", str "user", str "person"].any
      (fun k => substr k name_lower) then str "employees"
  else if [str "department", str "dept", str "division", str "unit", str "team", str "group"].any
      (fun k => substr k name_lower) then str "departments"
  else if [str "salary", str "compensation", str "pay", str "wage", str "payroll", str "earning"].any
      (fun k => substr k name_lower) then str "compensation"
  else if [str "project", str "assignment", str "task", str "work", str "job"].any
      (fun k => substr k name_lower) then str "projects"
  else if [str "role", str "position", str "job", str "title", str "designation"].any
      (fun k => substr k name_lower) then str "roles"
  else if [str "document", str "doc", str "file", str "attachment", str "record"].any
      (fun k => substr k name_lower) then str "documents"
  else if [str "order", str "purchase", str "sale", str "transaction"].any
      (fun k => substr k name_lower) then str "transactions"
  else if [str "product", str "item", str "inventory", str "stock"].any
      (fun k => substr k name_lower) then str "products"
  else if [str "customer", str "client", str "contact"].any
      (fun k => substr k name_lower) then str "customers"
  else str "unknown"

/-- `_detect_column_purpose`: ordered keyword tests over the lower-cased column
name, falling back to tests on the lower-cased declared type. -/
def _detect_column_purpose (column_name column_type : Str) : Str :=
  let name_lower := toLowerStr column_name
  let type_str := toLowerStr column_type
  if ([str "id", str "key"].any (fun k => substr k name_lower)) || (str "_id").isSuffixOf name_lower then
    str "identifier"
  else if [str "name", str "title", str "label", str "fname", str "lname", str "first_name", str "last_name"].any
      (fun k => substr k name_lower) then str "name"
  else if [str "email", str "mail", str "e_mail"].any (fun k => substr k name_lower) then str "email"
  else if [str "phone", str "tel", str "mobile", str "contact"].any (fun k => substr k name_lower) then str "phone"
  else if [str "date", str "time", str "created", str "updated", str "modified", str "timestamp"].any
      (fun k => substr k name_lower) then str "datetime"
  else if [str "salary", str "wage", str "pay", str "compensation", str "amount", str "price", str "cost"].any
      (fun k => substr k name_lower) then str "monetary"
  else if [str "address", str "location", str "city", str "state", str "country", str "zip", str "postal"].any
      (fun k => substr k name_lower) then str "location"
  else if [str "status", str "state", str "category", str "type", str "kind"].any
      (fun k => substr k name_lower) then str "category"
  else if [str "varchar", str "text", str "char", str "string"].any (fun t => substr t type_str) then str "text"
  else if [str "int", str "integer", str "numeric", str "decimal", str "float", str "real", str "double"].any
      (fun t => substr t type_str) then str "numeric"
  else if [str "date", str "time", str "timestamp", str "datetime"].any (fun t => substr t type_str) then
    str "datetime"
  else if [str "bool", str "boolean"].any (fun t => substr t type_str) then str "boolean"
  else str "unknown"

/-! ## Fallible database access

Each `cursor.execute` the analyzer performs for a table is modelled by an
`Except Unit` result so that the `try/except` structure of `_analyze_table`,
`_analyze_relationships` and `_collect_statistics` can be reproduced. -/

/-- The value of a fallible fetch, with the default used by the surrounding
`except` handler. -/
def okD {α : Type} (e : Except Unit α) (d : α) : α :=
  match e with
  | .ok a => a
  | .error _ => d

/-- The four database fetches `_analyze_table` performs for one table:
`PRAGMA table_info`, `PRAGMA foreign_key_list`, the 3-row sample `SELECT`,
and the row-count `SELECT`. -/
structure TableOracle where
  colsRes : Except Unit (List ColumnInfo)
  fkRes : Except Unit (List ForeignKeyRef)
  sampleRes : Except Unit (List Row)
  countRes : Except Unit Nat

/-- A connected database: the table names listed by `sqlite_master` (already
filtered of `sqlite_%` system tables and sorted by the `ORDER BY name`), and
the per-table fetch results. -/
structure DbOracle where
  tableNames : List Str
  tableOracle : Str → TableOracle

/-- The dict `_analyze_table` returns from its outer `except` handler. -/
def defaultTableData : TableData :=
  { columns := [], primary_keys := [], foreign_keys := [], sample_data := []
    row_count := 0, column_purposes := [], purpose := [] }

/-- The dict `_analyze_table` returns on the success path, given the fetched
parts: `primary_keys` collects the names of the primary-key columns and
`column_purposes` maps each column name to its detected purpose. -/
def tableFromParts (columns : List ColumnInfo) (fks : List ForeignKeyRef)
    (sample : List Row) (cnt : Nat) : TableData :=
  { columns := columns
    primary_keys := (columns.filter (·.primary_key)).map (·.name)
    foreign_keys := fks
    sample_data := sample
    row_count := cnt
    column_purposes := columns.map (fun c => (c.name, _detect_column_purpose c.name c.type))
    purpose := [] }

/-- `_analyze_table`: the outer `try` covers the column and foreign-key
fetches (a failure of either yields the all-default dict); the sample fetch
and the row-count fetch each have their own `except` handler defaulting to
`[]` and `0` respectively. -/
def _analyze_table (o : TableOracle) : TableData :=
  match o.colsRes with
  | .error _ => defaultTableData
  | .ok columns =>
    match o.fkRes with
    | .error _ => defaultTableData
    | .ok fks => tableFromParts columns fks (okD o.sampleRes []) (okD o.countRes 0)

/-- `_analyze_relationships`: per table, the foreign-key fetch with a
per-table `except` handler defaulting to `[]` (the constant `type` and
`relationship_strength` fields of each entry are omitted from the model). -/
def _analyze_relationships (tableNames : List Str) (oracle : Str → TableOracle) :
    List (Str × List ForeignKeyRef) :=
  tableNames.map (fun nm => (nm, okD (oracle nm).fkRes []))

/-- The `statistics` dict of `_collect_statistics` (the `database_size_mb`
field, read from the filesystem rather than the connection, is outside the
model). -/
structure Statistics where
  total_tables : Nat
  total_rows : Nat
  table_sizes : List (Str × Nat)
deriving Repr, DecidableEq

/-- `_collect_statistics`: per-table row counts with a per-table `except`
handler defaulting to `0`, summed into `total_rows`. -/
def _collect_statistics (tableNames : List Str) (oracle : Str → TableOracle) : Statistics :=
  let sizes := tableNames.map (fun nm => (nm, okD (oracle nm).countRes 0))
  { total_tables := tableNames.length
    total_rows := (sizes.map (·.2)).sum
    table_sizes := sizes }

/-- The `schema_info` dict assembled by `analyze_database` (the constant
`database_type: "sqlite"` entry is omitted). -/
structure SchemaInfo where
  tables : List (Str × TableData)
  relationships : List (Str × List ForeignKeyRef)
  statistics : Statistics
  naming_patterns : NamingPatterns

/-- `analyze_database`, for an established connection: analyze each listed
table, attach its detected purpose, and assemble relationships, naming
patterns and statistics. -/
def analyze_database (db : DbOracle) : SchemaInfo :=
  { tables := db.tableNames.map (fun nm =>
      (nm, { _analyze_table (db.tableOracle nm) with purpose := _detect_table_purpose nm }))
    relationships := _analyze_relationships db.tableNames db.tableOracle
    statistics := _collect_statistics db.tableNames db.tableOracle
    naming_patterns := _analyze_naming_patterns }

/-! ## Query classification and relevance scoring -/

/-- `_classify_query_type`: priority-ordered keyword tests over the
lower-cased query, first match wins. -/
def _classify_query_type (query : Str) : Str :=
  let query_lower := toLowerStr query
  if [str "count", str "how many", str "number of", str "total"].any
      (fun k => substr k query_lower) then str "count"
  else if [str "average", str "avg", str "mean"].any
      (fun k => substr k query_lower) then str "aggregation"
  else if [str "highest", str "lowest", str "top", str "bottom", str "max", str "min"].any
      (fun k => substr k query_lower) then str "ranking"
  else if [str "sum", str "total amount", str "sum of"].any
      (fun k => substr k query_lower) then str "sum"
  else if [str "group by", str "by department", str "by role", str "grouped by"].any
      (fun k => substr k query_lower) then str "grouping"
  else if [str "list", str "show", str "display", str "get", str "find", str "all"].any
      (fun k => substr k query_lower) then str "selection"
  else str "general"

/-- `_calculate_table_relevance` (scores in tenths; `query` is the already
lower-cased query).  Steps of the source, in order: +0.8 for a table-name
match, the synonym loop (+0.7 with a `break` inside each synonym group whose
list contains the table name), +0.6 for a purpose match, +0.2 per column-name
match counted alongside, +0.3 bonus for more than two column matches, and
the final `min(relevance, 1.0)`. -/
def _calculate_table_relevance (query table_name : Str) (table_info : TableData)
    (patterns : NamingPatterns) : Int :=
  let r0 : Int := 0
  let r1 := if substr (toLowerStr table_name) query then r0 + 8 else r0
  let r2 := patterns.table_synonyms.foldl
    (fun acc pr =>
      if pr.2.contains (toLowerStr table_name) then
        if pr.2.any (fun synonym => substr synonym query) then acc + 7 else acc
      else acc) r1
  let r3 := if substr table_info.purpose query then r2 + 6 else r2
  let p := table_info.columns.foldl
    (fun (acc : Nat × Int) col =>
      if substr (toLowerStr col.name) query then (acc.1 + 1, acc.2 + 2) else acc)
    (0, r3)
  let r4 := if p.1 > 2 then p.2 + 3 else p.2
  min r4 10

/-- `_calculate_column_relevance` (scores in tenths; `query` is the already
lower-cased query).  Note: at its only call site the `column_info` dict is a
raw `columns` entry carrying no `purpose` key, so the source's
`column_info.get("purpose", "")` is always the empty string — which is a
substring of every query, so the +0.5 purpose credit always fires. -/
def _calculate_column_relevance (query column_name : Str) (column_info : ColumnInfo)
    (patterns : NamingPatterns) : Int :=
  let r0 : Int := 0
  let r1 := if substr (toLowerStr column_name) query then r0 + 8 else r0
  let r2 := patterns.column_synonyms.foldl
    (fun acc pr =>
      if pr.2.contains (toLowerStr column_name) || toLowerStr column_name == pr.1 then
        if pr.2.any (fun synonym => substr synonym query) then acc + 7 else acc
      else acc) r1
  let purpose : Str := []
  let r3 := if substr purpose query then r2 + 5 else r2
  let r4 := if substr (str "salary") query &&
      [str "decimal", str "numeric", str "integer"].contains (toLowerStr column_info.type)
    then r3 + 3 else r3
  let r5 := if substr (str "name") query &&
      [str "varchar", str "text", str "char"].contains (toLowerStr column_info.type)
    then r4 + 3 else r4
  let r6 := if substr (str "date") query && substr (str "date") (toLowerStr column_info.type)
    then r5 + 3 else r5
  min r6 10

/-! ## Natural-language-to-schema mapping -/

/-- One entry of `suggested_tables`. -/
structure TableSuggestion where
  table_name : Str
  relevance : Int
  purpose : Str
deriving Repr, DecidableEq

/-- One entry of a `suggested_columns` list. -/
structure ColumnSuggestion where
  column_name : Str
  relevance : Int
  purpose : Str
  data_type : Str
deriving Repr, DecidableEq

/-- Stable insertion of `x` into `l`: `x` goes in front of the first element
whose key does not exceed `x`'s key. -/
def insertDesc {α : Type} (key : α → Int) (x : α) : List α → List α
  | [] => [x]
  | y :: t => if key y ≤ key x then x :: y :: t else y :: insertDesc key x t

/-- Python's stable `list.sort(key=..., reverse=True)`: a stable descending
sort by an integer key.  Stability and descending sortedness determine the
output uniquely, so this insertion sort computes exactly what the source's
Timsort does. -/
def sortDesc {α : Type} (key : α → Int) : List α → List α
  | [] => []
  | x :: t => insertDesc key x (sortDesc key t)

/-- The `suggested_tables` list of `map_natural_language_to_schema` before
sorting: tables in schema-discovery order whose relevance passes the
`> 0.2` threshold. -/
def tableCandidates (query_lower : Str) (tables : List (Str × TableData))
    (patterns : NamingPatterns) : List TableSuggestion :=
  tables.filterMap (fun pr =>
    let relevance := _calculate_table_relevance query_lower pr.1 pr.2 patterns
    if relevance > 2 then
      some { table_name := pr.1, relevance := relevance, purpose := pr.2.purpose }
    else none)

/-- The `relevant_columns` list computed for one suggested table before
sorting: columns in table order whose relevance passes the `> 0.1`
threshold, with purpose looked up in `column_purposes` (default
`"unknown"`). -/
def columnCandidatesFor (query_lower : Str) (table_data : TableData)
    (patterns : NamingPatterns) : List ColumnSuggestion :=
  table_data.columns.filterMap (fun col =>
    let col_relevance := _calculate_column_relevance query_lower col.name col patterns
    if col_relevance > 1 then
      some { column_name := col.name
             relevance := col_relevance
             purpose := (table_data.column_purposes.lookup col.name).getD (str "unknown")
             data_type := col.type }
    else none)

/-- `_generate_sql_hints` (it reads only `query_type` and `suggested_tables`
from the mapping under construction). -/
def _generate_sql_hints (query_type : Str) (suggested_tables : List TableSuggestion) :
    List Str :=
  let hints : List Str :=
    if query_type == str "count" then [str "Use SELECT COUNT(*) or COUNT(column_name)"]
    else if query_type == str "aggregation" then [str "Use AVG() function"]
    else if query_type == str "ranking" then [str "Use ORDER BY with LIMIT"]
    else if query_type == str "sum" then [str "Use SUM() function"]
    else if query_type == str "grouping" then [str "Use GROUP BY clause"]
    else if query_type == str "selection" then [str "Use SELECT with WHERE conditions"]
    else []
  if suggested_tables.length > 1 then
    hints ++ [str "Consider JOINing tables using foreign key relationships"]
  else hints

/-- `_calculate_mapping_confidence` (it reads `suggested_tables`,
`suggested_columns` and `query_type` from the mapping under construction).
Stored tenths `r` enter the float combination as the rational `r / 10`. -/
def _calculate_mapping_confidence (suggested_tables : List TableSuggestion)
    (suggested_columns : List (Str × List ColumnSuggestion)) (query_type : Str) : ℚ :=
  if suggested_tables.isEmpty then 0
  else
    let table_relevances : List ℚ := suggested_tables.map (fun t => (t.relevance : ℚ) / 10)
    let avg_table_relevance := table_relevances.sum / (table_relevances.length : ℚ)
    let tables_with_columns := (suggested_columns.filter (fun pr => !pr.2.isEmpty)).length
    let total_suggested_tables := suggested_tables.length
    let column_coverage : ℚ :=
      if total_suggested_tables = 0 then 0
      else (tables_with_columns : ℚ) / (total_suggested_tables : ℚ)
    let query_type_confidence : ℚ := if query_type ≠ str "general" then 0.8 else 0.4
    min (avg_table_relevance * 0.4 + column_coverage * 0.3 + query_type_confidence * 0.3) 1

/-- The `mapping` dict of `map_natural_language_to_schema`. -/
structure QueryMapping where
  suggested_tables : List TableSuggestion
  suggested_columns : List (Str × List ColumnSuggestion)
  query_type : Str
  confidence : ℚ
  sql_hints : List Str

/-- The sorted `relevant_columns` value stored under one suggested table's
name.  The `none` branch of the lookup is unreachable when the name comes
from a suggested table: every suggested table name is a key of `tables`
(in the source, `tables[table_name]` likewise cannot raise there). -/
def suggestedColumnsFor (query_lower : Str) (tables : List (Str × TableData))
    (patterns : NamingPatterns) (nm : Str) : List ColumnSuggestion :=
  match tables.lookup nm with
  | some table_data =>
    sortDesc (·.relevance) (columnCandidatesFor query_lower table_data patterns)
  | none => []

/-- `map_natural_language_to_schema`: classify the query, score and filter
tables, sort them by descending relevance (stably), score/filter/sort the
columns of each suggested table, then attach hints and confidence. -/
def map_natural_language_to_schema (query : Str) (schema_info : SchemaInfo) : QueryMapping :=
  let query_type := _classify_query_type query
  let query_lower := toLowerStr query
  let tables := schema_info.tables
  let patterns := schema_info.naming_patterns
  let suggested_tables := sortDesc (·.relevance) (tableCandidates query_lower tables patterns)
  let suggested_columns := suggested_tables.map (fun ts =>
    (ts.table_name, suggestedColumnsFor query_lower tables patterns ts.table_name))
  { suggested_tables := suggested_tables
    suggested_columns := suggested_columns
    query_type := query_type
    confidence := _calculate_mapping_confidence suggested_tables suggested_columns query_type
    sql_hints := _generate_sql_hints query_type suggested_tables }

/-! ## SQL generation (`query_engine.py`)

The three `re.search` uses are modelled by leftmost-match scanners over the
character list (character classes restricted to ASCII, matching the inputs
these services see). -/

/-- ASCII decimal digit (`\d`). -/
def isDigitChar (c : Char) : Bool := 48 ≤ c.toNat && c.toNat ≤ 57

/-- Python's `\s` on ASCII: space, tab, newline, carriage return, vertical
tab, form feed. -/
def isPySpace (c : Char) : Bool :=
  c == ' ' || c == '\t' || c == '\n' || c == '\r' || c.toNat == 11 || c.toNat == 12

/-- The value of `int(...)` on a nonempty digit string. -/
def digitsToNat (l : Str) : Nat := l.foldl (fun acc c => acc * 10 + (c.toNat - 48)) 0

/-- Decimal rendering of a number into an f-string. -/
def natToStr (n : Nat) : Str := (toString n).data

/-- Leftmost match of `re.search(r'(20\d{2})', query)`, returning the
matched four-character year. -/
def findYear : Str → Option Str
  | '2' :: '0' :: d1 :: d2 :: rest =>
    if isDigitChar d1 && isDigitChar d2 then some ['2', '0', d1, d2]
    else findYear ('0' :: d1 :: d2 :: rest)
  | _ :: rest => findYear rest
  | [] => none

/-- Helper for `re.search(r'salary[\s><=]+([,\d]+)', ...)`: the capture
obtained right after a literal `salary`, if the separator run and the
amount run are both nonempty. -/
def salaryAmountAt (l : Str) : Option Str :=
  let seps := l.takeWhile (fun c => isPySpace c || c == '>' || c == '<' || c == '=')
  if seps.isEmpty then none
  else
    let amount := (l.drop seps.length).takeWhile (fun c => c == ',' || isDigitChar c)
    if amount.isEmpty then none else some amount

/-- Leftmost match of `re.search(r'salary[\s><=]+([,\d]+)', query_lower)`,
returning the captured amount group. -/
def findSalaryAmount : Str → Option Str
  | [] => none
  | c :: rest =>
    if (str "salary").isPrefixOf (c :: rest) then
      match salaryAmountAt ((c :: rest).drop 6) with
      | some a => some a
      | none => findSalaryAmount rest
    else findSalaryAmount rest

/-- Helper for `re.search(r'(?:top|bottom)\s+(\d+)', ...)`: the number
right after a literal `top`/`bottom`, if the whitespace run and the digit
run are both nonempty. -/
def topBottomNumberAt (l : Str) : Option Nat :=
  let sp := l.takeWhile isPySpace
  if sp.isEmpty then none
  else
    let ds := (l.drop sp.length).takeWhile isDigitChar
    if ds.isEmpty then none else some (digitsToNat ds)

/-- Leftmost match of `re.search(r'(?:top|bottom)\s+(\d+)', query_lower)`,
returning `int` of the captured digits. -/
def findTopBottomLimit : Str → Option Nat
  | [] => none
  | c :: rest =>
    if (str "top").isPrefixOf (c :: rest) then
      match topBottomNumberAt ((c :: rest).drop 3) with
      | some n => some n
      | none => findTopBottomLimit rest
    else if (str "bottom").isPrefixOf (c :: rest) then
      match topBottomNumberAt ((c :: rest).drop 6) with
      | some n => some n
      | none => findTopBottomLimit rest
    else findTopBottomLimit rest

/-- `_find_numeric_columns` (its `table_name` argument is unused in the
source body). -/
def _find_numeric_columns (_table_name : Str) (columns : List ColumnSuggestion) : List Str :=
  columns.filterMap (fun col =>
    let data_type := toLowerStr col.data_type
    let purpose := toLowerStr col.purpose
    if ([str "int", str "numeric", str "decimal", str "float", str "real"].any
        (fun t => substr t data_type)) || purpose == str "monetary"
    then some col.column_name else none)

/-- `_get_relevant_columns`: the five most relevant column names, again via
a stable descending sort, or `["*"]` when there are no columns. -/
def _get_relevant_columns (_table_name : Str) (columns : List ColumnSuggestion) : List Str :=
  if columns.isEmpty then [str "*"]
  else
    let columns_sorted := sortDesc (·.relevance) columns
    let relevant_cols := (columns_sorted.take 5).map (·.column_name)
    if relevant_cols.isEmpty then [str "*"] else relevant_cols

/-- The `group_patterns` dict of `_find_grouping_columns`. -/
def group_patterns : List (Str × List Str) :=
  [ (str "department", [str "department", str "dept", str "division", str "unit"])
  , (str "role", [str "role", str "position", str "title", str "job"])
  , (str "status", [str "status", str "state", str "active"])
  , (str "category", [str "category", str "type", str "kind"])
  , (str "location", [str "location", str "city", str "state", str "country"]) ]

/-- `_find_grouping_columns`: for each triggered group pattern, the first
column whose name contains one of the group's synonyms. -/
def _find_grouping_columns (query : Str) (_table_name : Str)
    (columns : List ColumnSuggestion) : List Str :=
  let query_lower := toLowerStr query
  group_patterns.foldl (fun group_cols pr =>
    if pr.2.any (fun synonym => substr synonym query_lower) then
      match columns.find? (fun col =>
          pr.2.any (fun synonym => substr synonym (toLowerStr col.column_name))) with
      | some col => group_cols ++ [col.column_name]
      | none => group_cols
    else group_cols) []

/-- `_extract_where_conditions`: the year filter (matched on the original
query), the `active` status filter and the salary comparison filter, in
this order. -/
def _extract_where_conditions (query : Str) (_table_name : Str)
    (columns : List ColumnSuggestion) : List Str :=
  let query_lower := toLowerStr query
  let conds0 : List Str := []
  let conds1 :=
    match findYear query with
    | some year =>
      let date_cols := (columns.filter (fun col =>
        substr (str "date") (toLowerStr col.purpose))).map (·.column_name)
      match date_cols with
      | d :: _ =>
        conds0 ++ [str "strftime(" ++ squote ++ str "%Y" ++ squote ++ str ", " ++ d
          ++ str ") = " ++ squote ++ year ++ squote]
      | [] => conds0
    | none => conds0
  let conds2 :=
    if substr (str "active") query_lower then
      let status_cols := (columns.filter (fun col =>
        substr (str "status") (toLowerStr col.column_name))).map (·.column_name)
      match status_cols with
      | s :: _ => conds1 ++ [s ++ str " = " ++ squote ++ str "active" ++ squote]
      | [] => conds1
    else conds1
  let conds3 :=
    match findSalaryAmount query_lower with
    | some raw =>
      let amount := raw.filter (fun c => !(c == ','))
      let salary_cols := (columns.filter (fun col =>
        substr (str "salary") (toLowerStr col.column_name))).map (·.column_name)
      match salary_cols with
      | s :: _ =>
        if substr (str ">") query_lower || substr (str "above") query_lower ||
            substr (str "more than") query_lower then
          conds2 ++ [s ++ str " > " ++ amount]
        else if substr (str "<") query_lower || substr (str "below") query_lower ||
            substr (str "less than") query_lower then
          conds2 ++ [s ++ str " < " ++ amount]
        else conds2
      | [] => conds2
    | none => conds2
  conds3

/-- `_generate_joins`: the hard-coded employee/department join heuristic
between the primary table and each further suggested table. -/
def _generate_joins (tables : List TableSuggestion) : List Str :=
  match tables with
  | [] => []
  | primary :: rest =>
    let primary_table := primary.table_name
    rest.filterMap (fun t =>
      let secondary_table := t.table_name
      if substr (str "department") (toLowerStr secondary_table) &&
          substr (str "employee") (toLowerStr primary_table) then
        some (str "LEFT JOIN " ++ secondary_table ++ str " ON " ++ primary_table
          ++ str ".department_id = " ++ secondary_table ++ str ".id")
      else if substr (str "employee") (toLowerStr secondary_table) &&
          substr (str "department") (toLowerStr primary_table) then
        some (str "LEFT JOIN " ++ secondary_table ++ str " ON " ++ primary_table
          ++ str ".id = " ++ secondary_table ++ str ".department_id")
      else none)

/-- The `sql_parts` dict of `_generate_sql_query`. -/
structure SqlParts where
  select : List Str
  fromTable : Str
  joins : List Str
  whereConds : List Str
  group_by : List Str
  order_by : List Str
  limit : Option Nat
deriving Repr, DecidableEq

/-- The SQL text assembled by `_build_sql_string` before the `LIMIT`
append: SELECT, FROM, JOINs, WHERE (AND-joined), GROUP BY, ORDER BY,
skipping empty clause lists. -/
def sqlBeforeLimit (p : SqlParts) : Str :=
  let s1 := str "SELECT " ++ (List.intercalate (str ", ") p.select) ++ str " FROM " ++ p.fromTable
  let s2 := if !p.joins.isEmpty then s1 ++ str " " ++ (List.intercalate (str " ") p.joins) else s1
  let s3 := if !p.whereConds.isEmpty then
      s2 ++ str " WHERE " ++ (List.intercalate (str " AND ") p.whereConds)
    else s2
  let s4 := if !p.group_by.isEmpty then
      s3 ++ str " GROUP BY " ++ (List.intercalate (str ", ") p.group_by)
    else s3
  let s5 := if !p.order_by.isEmpty then
      s4 ++ str " ORDER BY " ++ (List.intercalate (str ", ") p.order_by)
    else s4
  s5

/-- `_build_sql_string`: the clause concatenation; the final `if
sql_parts["limit"]:` is Python truthiness, so both `None` and `0` skip the
`LIMIT` clause. -/
def _build_sql_string (p : SqlParts) : Str :=
  match p.limit with
  | some n => if n == 0 then sqlBeforeLimit p else sqlBeforeLimit p ++ str " LIMIT " ++ natToStr n
  | none => sqlBeforeLimit p

/-- The `sql_parts` value `_generate_sql_query` assembles before calling
`_build_sql_string` (`none` when no table was suggested). -/
def generate_sql_parts (natural_query : Str) (mapping : QueryMapping) : Option SqlParts :=
  let query_lower := toLowerStr natural_query
  let query_type := mapping.query_type
  let suggested_tables := mapping.suggested_tables
  let suggested_columns := mapping.suggested_columns
  match suggested_tables with
  | [] => none
  | primary :: _ =>
    let primary_table := primary.table_name
    let primary_cols := (suggested_columns.lookup primary_table).getD []
    let base : SqlParts :=
      { select := [], fromTable := primary_table, joins := [], whereConds := []
        group_by := [], order_by := [], limit := none }
    let parts :=
      if query_type == str "count" then
        { base with select := [str "COUNT(*) as count"] }
      else if query_type == str "aggregation" then
        match _find_numeric_columns primary_table primary_cols with
        | c :: _ =>
          if substr (str "average") query_lower || substr (str "avg") query_lower then
            { base with select := [str "AVG(" ++ c ++ str ") as average_" ++ c] }
          else
            { base with select := [str "AVG(" ++ c ++ str ") as average"] }
        | [] => { base with select := [str "COUNT(*) as count"] }
      else if query_type == str "sum" then
        match _find_numeric_columns primary_table primary_cols with
        | c :: _ => { base with select := [str "SUM(" ++ c ++ str ") as total_" ++ c] }
        | [] => { base with select := [str "*"] }
      else if query_type == str "ranking" then
        let relevant_cols := _get_relevant_columns primary_table primary_cols
        let sel := if relevant_cols.isEmpty then [str "*"] else relevant_cols
        let order_by :=
          if substr (str "highest") query_lower || substr (str "max") query_lower ||
              substr (str "top") query_lower then
            match _find_numeric_columns primary_table primary_cols with
            | c :: _ => [c ++ str " DESC"]
            | [] => []
          else if substr (str "lowest") query_lower || substr (str "min") query_lower ||
              substr (str "bottom") query_lower then
            match _find_numeric_columns primary_table primary_cols with
            | c :: _ => [c ++ str " ASC"]
            | [] => []
          else []
        let limit :=
          if substr (str "top") query_lower || substr (str "bottom") query_lower then
            match findTopBottomLimit query_lower with
            | some n => some n
            | none => some 10
          else none
        { base with select := sel, order_by := order_by, limit := limit }
      else if query_type == str "grouping" then
        let group_cols := _find_grouping_columns natural_query primary_table primary_cols
        if group_cols.isEmpty then { base with select := [str "*"] }
        else { base with select := group_cols ++ [str "COUNT(*) as count"], group_by := group_cols }
      else
        let relevant_cols := _get_relevant_columns primary_table primary_cols
        { base with select := if relevant_cols.isEmpty then [str "*"] else relevant_cols }
    let parts2 := { parts with
      whereConds := _extract_where_conditions natural_query primary_table primary_cols }
    let parts3 :=
      if suggested_tables.length > 1 then { parts2 with joins := _generate_joins suggested_tables }
      else parts2
    some parts3

/-- `_generate_sql_query`: the assembled parts rendered to SQL text (or
`None`). -/
def _generate_sql_query (natural_query : Str) (mapping : QueryMapping) : Option Str :=
  (generate_sql_parts natural_query mapping).map _build_sql_string

/-- The mapping-then-SQL pipeline run by `execute_query` and
`explain_query` for a fixed schema snapshot. -/
def pipeline (natural_query : Str) (schema_info : SchemaInfo) : QueryMapping × Option Str :=
  let mapping := map_natural_language_to_schema natural_query schema_info
  (mapping, _generate_sql_query natural_query mapping)

/-! ## Specification-side definitions

These restate the spec's wording of selected computations; the theorems
below compare them with the source-derived definitions above. -/

/-- The spec's priority table for query classification (section 4.4):
first matching intent wins, else `general`. -/
def query_priority : List (Str × List Str) :=
  [ (str "count", [str "count", str "how many", str "number of", str "total"])
  , (str "aggregation", [str "average", str "avg", str "mean"])
  , (str "ranking", [str "highest", str "lowest", str "top", str "bottom", str "max", str "min"])
  , (str "sum", [str "sum", str "total amount", str "sum of"])
  , (str "grouping", [str "group by", str "by department", str "by role", str "grouped by"])
  , (str "selection", [str "list", str "show", str "display", str "get", str "find", str "all"]) ]

/-- First-match-wins reading of a priority table, as the spec's classifier
description prescribes. -/
def classifySpecAux (query_lower : Str) : List (Str × List Str) → Str
  | [] => str "general"
  | pr :: rest =>
    if pr.2.any (fun k => substr k query_lower) then pr.1 else classifySpecAux query_lower rest

/-- The spec's description of the classifier: the first intent of the
priority table one of whose trigger phrases occurs in the lower-cased
query. -/
def classifySpec (query : Str) : Str :=
  let query_lower := toLowerStr query
  match query_priority.find? (fun pr => pr.2.any (fun k => substr k query_lower)) with
  | some pr => pr.1
  | none => str "general"

/-- Closed form of the table-relevance computation (tenths): name credit 8,
synonym credit 7 per synonym group that lists the table name and has a
synonym occurring in the query, purpose credit 6, column credit 2 per
column-name match with a bonus 3 for more than two matches, clamped at 10. -/
def tableRelevanceSpec (query table_name : Str) (table_info : TableData)
    (patterns : NamingPatterns) : Int :=
  let name_credit : Int := if substr (toLowerStr table_name) query then 8 else 0
  let synonym_credit : Int := 7 * (((patterns.table_synonyms.filter (fun pr =>
      pr.2.contains (toLowerStr table_name) &&
        pr.2.any (fun synonym => substr synonym query))).length : Int))
  let purpose_credit : Int := if substr table_info.purpose query then 6 else 0
  let column_matches :=
    (table_info.columns.filter (fun col => substr (toLowerStr col.name) query)).length
  let column_credit : Int := 2 * (column_matches : Int)
  let bonus : Int := if column_matches > 2 then 3 else 0
  min (name_credit + synonym_credit + purpose_credit + column_credit + bonus) 10

/-- The claim's reading of the table-relevance computation, with the
synonym credit applied at most once overall. -/
def tableRelevanceClaimed (query table_name : Str) (table_info : TableData)
    (patterns : NamingPatterns) : Int :=
  let name_credit : Int := if substr (toLowerStr table_name) query then 8 else 0
  let synonym_credit : Int := if patterns.table_synonyms.any (fun pr =>
      pr.2.contains (toLowerStr table_name) &&
        pr.2.any (fun synonym => substr synonym query)) then 7 else 0
  let purpose_credit : Int := if substr table_info.purpose query then 6 else 0
  let column_matches :=
    (table_info.columns.filter (fun col => substr (toLowerStr col.name) query)).length
  let column_credit : Int := 2 * (column_matches : Int)
  let bonus : Int := if column_matches > 2 then 3 else 0
  min (name_credit + synonym_credit + purpose_credit + column_credit + bonus) 10

/-- The spec's confidence formula (section 4.6) read off a produced mapping:
0 when no tables were suggested, otherwise 0.4 × mean of the suggested
tables' relevances, plus 0.3 × the fraction of suggested tables having at
least one relevant column, plus 0.3 × the query-type factor, clamped to 1. -/
def confidenceSpec (m : QueryMapping) : ℚ :=
  if m.suggested_tables = [] then 0
  else
    let mean := (m.suggested_tables.map (fun t => (t.relevance : ℚ) / 10)).sum
      / (m.suggested_tables.length : ℚ)
    let tables_with_relevant_column := (m.suggested_tables.filter (fun t =>
      !((m.suggested_columns.lookup t.table_name).getD []).isEmpty)).length
    min 1 (0.4 * mean
      + 0.3 * ((tables_with_relevant_column : ℚ) / (m.suggested_tables.length : ℚ))
      + 0.3 * (if m.query_type ≠ str "general" then 0.8 else 0.4))

/-- The unsorted column-candidate list that feeds one `suggested_columns`
entry (used to state sort stability). -/
def rawColumnCandidates (query : Str) (schema_info : SchemaInfo) (nm : Str) :
    List ColumnSuggestion :=
  match schema_info.tables.lookup nm with
  | some table_data =>
    columnCandidatesFor (toLowerStr query) table_data schema_info.naming_patterns
  | none => []

/-! ## Concrete fixtures

A small database in the shape the spec's acceptance examples use: one
`employees` table with a numeric `salary` column of monetary purpose. -/

/-- Per-table fetch results for the `employees` table. -/
def employeesOracle : TableOracle where
  colsRes := .ok [{ name := str "salary", type := str "DECIMAL", not_null := false
                    default_value := none, primary_key := false }]
  fkRes := .ok []
  sampleRes := .ok []
  countRes := .ok 5

/-- A table whose every fetch fails. -/
def failingOracle : TableOracle where
  colsRes := .error ()
  fkRes := .error ()
  sampleRes := .error ()
  countRes := .error ()

/-- A connected database with the single `employees` table. -/
def employeesDb : DbOracle where
  tableNames := [str "employees"]
  tableOracle := fun _ => employeesOracle

/-- The snapshot `analyze_database` produces for `employeesDb`. -/
def employeesSchema : SchemaInfo := analyze_database employeesDb

/-- A connected database whose `badtable` introspection fails entirely while
`employees` analyzes normally. -/
def mixedDb : DbOracle where
  tableNames := [str "badtable", str "employees"]
  tableOracle := fun nm => if nm == str "badtable" then failingOracle else employeesOracle

/-- A synonym dictionary in which the table name `tbl` belongs to two
canonical concepts (used to refute the at-most-once synonym credit for
arbitrary dictionaries). -/
def doubleCreditPatterns : NamingPatterns where
  column_synonyms := []
  table_synonyms := [ (str "c1", [str "tbl", str "foo"]), (str "c2", [str "tbl", str "bar"]) ]
  query_patterns := []

/-- A table with no columns and a purpose that matches no query used with
it. -/
def plainTable : TableData where
  columns := []
  primary_keys := []
  foreign_keys := []
  sample_data := []
  row_count := 0
  column_purposes := []
  purpose := str "zzz"

/-- The ranking mapping used to exercise the explicit `top N` limit. -/
def rankMapping : QueryMapping :=
  map_natural_language_to_schema (str "show top 5 highest paid employees") employeesSchema

/-- The SQL parts generated for `rankMapping`. -/
def rankParts : SqlParts where
  select := [str "salary"]
  fromTable := str "employees"
  joins := []
  whereConds := []
  group_by := []
  order_by := [str "salary DESC"]
  limit := some 5

/-! ## Helper lemmas: substring testing -/

theorem substr_infix_iff (needle : Str) :
    ∀ haystack : Str, substr needle haystack = true ↔ needle <:+: haystack := by
  intro haystack
  induction haystack with
  | nil => simp [substr, List.isEmpty_iff]
  | cons c rest ih =>
    simp only [substr, Bool.or_eq_true, List.isPrefixOf_iff_prefix, ih,
      List.infix_cons_iff]

theorem substr_trans {a b c : Str} (h1 : substr a b = true) (h2 : substr b c = true) :
    substr a c = true := by
  rw [substr_infix_iff] at h1 h2 ⊢
  exact h1.trans h2

/-! ## Helper lemmas: the stable descending sort -/

theorem mem_insertDesc {α : Type} (key : α → Int) (x : α) (l : List α) (a : α) :
    a ∈ insertDesc key x l ↔ a = x ∨ a ∈ l := by
  induction l with
  | nil => simp [insertDesc]
  | cons y t ih =>
    simp only [insertDesc]
    split
    · simp only [List.mem_cons]
    · simp only [List.mem_cons, ih]
      tauto

theorem pairwise_insertDesc {α : Type} (key : α → Int) (x : α) (l : List α)
    (h : l.Pairwise (fun a b => key b ≤ key a)) :
    (insertDesc key x l).Pairwise (fun a b => key b ≤ key a) := by
  induction l with
  | nil => simp [insertDesc]
  | cons y t ih =>
    rw [List.pairwise_cons] at h
    obtain ⟨hy, ht⟩ := h
    simp only [insertDesc]
    split
    · rename_i hle
      refine List.Pairwise.cons ?_ (List.Pairwise.cons hy ht)
      intro z hz
      rcases List.mem_cons.mp hz with rfl | hz'
      · exact hle
      · exact le_trans (hy z hz') hle
    · rename_i hgt
      refine List.Pairwise.cons ?_ (ih ht)
      intro z hz
      rcases (mem_insertDesc key x t z).mp hz with rfl | hz'
      · exact le_of_lt (lt_of_not_le hgt)
      · exact hy z hz'

theorem mem_sortDesc {α : Type} (key : α → Int) (l : List α) (a : α) :
    a ∈ sortDesc key l ↔ a ∈ l := by
  induction l with
  | nil => simp [sortDesc]
  | cons x t ih => simp [sortDesc, mem_insertDesc, ih]

theorem pairwise_sortDesc {α : Type} (key : α → Int) (l : List α) :
    (sortDesc key l).Pairwise (fun a b => key b ≤ key a) := by
  induction l with
  | nil => simp [sortDesc]
  | cons x t ih => exact pairwise_insertDesc key x _ ih

theorem filter_insertDesc {α : Type} (key : α → Int) (v : Int) (x : α) (l : List α) :
    (insertDesc key x l).filter (fun a => key a == v)
      = (x :: l).filter (fun a => key a == v) := by
  induction l with
  | nil => rfl
  | cons y t ih =>
    by_cases hle : key y ≤ key x
    · simp only [insertDesc, if_pos hle]
    · cases hbx : (key x == v) with
      | false =>
        simp [insertDesc, if_neg hle, List.filter_cons, hbx, ih]
      | true =>
        have hxv : key x = v := by simpa using hbx
        have hby : (key y == v) = false := by
          simp only [beq_eq_false_iff_ne, ne_eq]
          intro hyv
          exact hle (le_of_eq (by rw [hyv, hxv]))
        simp [insertDesc, if_neg hle, List.filter_cons, hbx, hby, ih]

theorem filter_sortDesc {α : Type} (key : α → Int) (v : Int) (l : List α) :
    (sortDesc key l).filter (fun a => key a == v) = l.filter (fun a => key a == v) := by
  induction l with
  | nil => rfl
  | cons x t ih =>
    rw [sortDesc, filter_insertDesc, List.filter_cons, List.filter_cons, ih]

/-! ## Helper lemmas: the accumulation loops of the relevance scorers -/

theorem foldl_credit {α : Type} (A B : α → Bool) (k : Int) :
    ∀ (l : List α) (init : Int),
      l.foldl (fun acc x => if A x then (if B x then acc + k else acc) else acc) init
        = init + k * (((l.filter (fun x => A x && B x)).length : Int)) := by
  intro l
  induction l with
  | nil => intro init; simp
  | cons x t ih =>
    intro init
    cases hA : A x with
    | false =>
      simp only [List.foldl_cons, List.filter_cons, hA]
      rw [ih]
      simp
    | true =>
      cases hB : B x with
      | false =>
        simp only [List.foldl_cons, List.filter_cons, hA, hB]
        rw [ih]
        simp
      | true =>
        simp only [List.foldl_cons, List.filter_cons, hA, hB, Bool.and_self, if_true]
        rw [ih]
        simp only [List.length_cons]
        push_cast
        ring

theorem foldl_count_pair {α : Type} (f : α → Bool) :
    ∀ (l : List α) (n : Nat) (r : Int),
      l.foldl (fun acc x => if f x then (acc.1 + 1, acc.2 + 2) else acc) (n, r)
        = (n + (l.filter f).length, r + 2 * (((l.filter f).length : Nat) : Int)) := by
  intro l
  induction l with
  | nil => intro n r; simp
  | cons x t ih =>
    intro n r
    cases hf : f x with
    | false =>
      simp only [List.foldl_cons, List.filter_cons, hf]
      rw [ih]
      simp
    | true =>
      simp only [List.foldl_cons, List.filter_cons, hf, if_true]
      rw [ih]
      simp only [List.length_cons, Prod.mk.injEq]
      constructor
      · omega
      · push_cast
        ring

/-! ## Helper lemmas: relevance scores -/

theorem tableRelevance_eq_spec (query table_name : Str) (table_info : TableData)
    (patterns : NamingPatterns) :
    _calculate_table_relevance query table_name table_info patterns
      = tableRelevanceSpec query table_name table_info patterns := by
  simp only [_calculate_table_relevance, tableRelevanceSpec]
  rw [foldl_credit, foldl_count_pair]
  congr 1
  split_ifs <;> omega

theorem tableRelevance_bounds (query table_name : Str) (table_info : TableData)
    (patterns : NamingPatterns) :
    0 ≤ _calculate_table_relevance query table_name table_info patterns ∧
      _calculate_table_relevance query table_name table_info patterns ≤ 10 := by
  rw [tableRelevance_eq_spec]
  simp only [tableRelevanceSpec]
  refine ⟨le_min ?_ (by norm_num), min_le_right _ _⟩
  split_ifs <;> omega

theorem columnRelevance_bounds (query column_name : Str) (column_info : ColumnInfo)
    (patterns : NamingPatterns) :
    0 ≤ _calculate_column_relevance query column_name column_info patterns ∧
      _calculate_column_relevance query column_name column_info patterns ≤ 10 := by
  simp only [_calculate_column_relevance]
  rw [foldl_credit]
  refine ⟨le_min ?_ (by norm_num), min_le_right _ _⟩
  split_ifs <;> omega

theorem mem_tableCandidates {query_lower : Str} {tables : List (Str × TableData)}
    {patterns : NamingPatterns} {t : TableSuggestion}
    (h : t ∈ tableCandidates query_lower tables patterns) :
    2 < t.relevance ∧ t.relevance ≤ 10 := by
  simp only [tableCandidates, List.mem_filterMap] at h
  obtain ⟨pr, hpr, hf⟩ := h
  split at hf
  · rename_i hrel
    cases hf
    exact ⟨hrel, (tableRelevance_bounds query_lower pr.1 pr.2 patterns).2⟩
  · cases hf

theorem mem_columnCandidatesFor {query_lower : Str} {table_data : TableData}
    {patterns : NamingPatterns} {c : ColumnSuggestion}
    (h : c ∈ columnCandidatesFor query_lower table_data patterns) :
    1 < c.relevance ∧ c.relevance ≤ 10 := by
  simp only [columnCandidatesFor, List.mem_filterMap] at h
  obtain ⟨col, hcol, hf⟩ := h
  split at hf
  · rename_i hrel
    cases hf
    exact ⟨hrel, (columnRelevance_bounds query_lower col.name col patterns).2⟩
  · cases hf

theorem mem_suggested_tables {query : Str} {schema_info : SchemaInfo} {t : TableSuggestion}
    (h : t ∈ (map_natural_language_to_schema query schema_info).suggested_tables) :
    2 < t.relevance ∧ t.relevance ≤ 10 := by
  simp only [map_natural_language_to_schema] at h
  rw [mem_sortDesc] at h
  exact mem_tableCandidates h

/-! ## Helper lemmas: confidence -/

theorem confidence_bounds (suggested_tables : List TableSuggestion)
    (suggested_columns : List (Str × List ColumnSuggestion)) (query_type : Str)
    (h : ∀ t ∈ suggested_tables, 0 ≤ t.relevance) :
    0 ≤ _calculate_mapping_confidence suggested_tables suggested_columns query_type ∧
      _calculate_mapping_confidence suggested_tables suggested_columns query_type ≤ 1 := by
  simp only [_calculate_mapping_confidence]
  by_cases he : suggested_tables.isEmpty
  · rw [if_pos he]
    norm_num
  · rw [if_neg he]
    refine ⟨le_min ?_ (by norm_num), min_le_right _ _⟩
    have havg : (0 : ℚ) ≤ (suggested_tables.map (fun t => (t.relevance : ℚ) / 10)).sum
        / ((suggested_tables.map (fun t => (t.relevance : ℚ) / 10)).length : ℚ) := by
      apply div_nonneg
      · apply List.sum_nonneg
        intro x hx
        obtain ⟨t, ht, rfl⟩ := List.mem_map.mp hx
        have := h t ht
        positivity
      · positivity
    have hcov : (0 : ℚ) ≤
        (if suggested_tables.length = 0 then (0 : ℚ)
         else (((suggested_columns.filter (fun pr => !pr.2.isEmpty)).length : ℚ)
           / (suggested_tables.length : ℚ))) := by
      split_ifs
      · exact le_refl 0
      · positivity
    have hqtc : (0 : ℚ) ≤ (if query_type ≠ str "general" then (0.8 : ℚ) else 0.4) := by
      split_ifs <;> norm_num
    have h04 : (0 : ℚ) ≤ 0.4 := by norm_num
    have h03 : (0 : ℚ) ≤ 0.3 := by norm_num
    exact add_nonneg (add_nonneg (mul_nonneg havg h04) (mul_nonneg hcov h03))
      (mul_nonneg hqtc h03)

/-! ## Helper lemmas: association-list lookups -/

theorem lookup_map_tableName {β : Type} (g : Str → β) :
    ∀ (l : List TableSuggestion) (t : TableSuggestion), t ∈ l →
      (l.map (fun ts => (ts.table_name, g ts.table_name))).lookup t.table_name
        = some (g t.table_name) := by
  intro l
  induction l with
  | nil => intro t ht; simp at ht
  | cons hd tl ih =>
    intro t ht
    simp only [List.map_cons, List.lookup]
    cases hbeq : (t.table_name == hd.table_name) with
    | true =>
      have heq : t.table_name = hd.table_name := eq_of_beq hbeq
      rw [heq]
    | false =>
      rcases List.mem_cons.mp ht with rfl | htl
      · simp at hbeq
      · exact ih t htl

theorem lookup_map_name {β : Type} (g : Str → β) :
    ∀ (names : List Str) (nm : Str), nm ∈ names →
      (names.map (fun n => (n, g n))).lookup nm = some (g nm) := by
  intro names
  induction names with
  | nil => intro nm hnm; simp at hnm
  | cons hd tl ih =>
    intro nm hnm
    simp only [List.map_cons, List.lookup]
    cases hbeq : (nm == hd) with
    | true =>
      have heq : nm = hd := eq_of_beq hbeq
      rw [heq]
    | false =>
      rcases List.mem_cons.mp hnm with rfl | htl
      · simp at hbeq
      · exact ih nm htl

theorem count_nonempty_eq (g : Str → List ColumnSuggestion) (l : List TableSuggestion) :
    ((l.map (fun ts => (ts.table_name, g ts.table_name))).filter
        (fun pr => !pr.2.isEmpty)).length
      = (l.filter (fun t =>
          !(((l.map (fun ts => (ts.table_name, g ts.table_name))).lookup t.table_name).getD
            []).isEmpty)).length := by
  rw [List.filter_map, List.length_map]
  congr 1
  apply List.filter_congr
  intro t ht
  rw [lookup_map_tableName g l t ht]
  rfl


/-! ## Helper lemmas: query classification -/

theorem classifySpecAux_eq_find (ql : Str) :
    ∀ l : List (Str × List Str), classifySpecAux ql l
      = (match l.find? (fun pr => pr.2.any (fun k => substr k ql)) with
         | some pr => pr.1
         | none => str "general") := by
  intro l
  induction l with
  | nil => rfl
  | cons hd tl ih =>
    rw [classifySpecAux]
    by_cases h : (hd.2.any (fun k => substr k ql) = true)
    · rw [if_pos h, @List.find?_cons_of_pos _ (fun pr => pr.2.any (fun k => substr k ql)) hd tl h]
    · rw [if_neg h, @List.find?_cons_of_neg _ (fun pr => pr.2.any (fun k => substr k ql)) hd tl h]
      exact ih

theorem classify_eq_aux (q : Str) :
    _classify_query_type q = classifySpecAux (toLowerStr q) query_priority := rfl

theorem classify_eq_spec (q : Str) : _classify_query_type q = classifySpec q := by
  rw [classify_eq_aux, classifySpecAux_eq_find]
  rfl

/-! ## Helper lemmas: confidence formula of a produced mapping -/

theorem map_confidence_eq (q : Str) (s : SchemaInfo) :
    (map_natural_language_to_schema q s).confidence
      = confidenceSpec (map_natural_language_to_schema q s) := by
  simp only [map_natural_language_to_schema, confidenceSpec, _calculate_mapping_confidence]
  set sts := sortDesc (fun t : TableSuggestion => t.relevance)
    (tableCandidates (toLowerStr q) s.tables s.naming_patterns) with hsts
  by_cases he : sts = []
  · simp [he]
  · have hne : sts.isEmpty = false := by simp [List.isEmpty_iff, he]
    have hlen : sts.length ≠ 0 := by simpa [List.length_eq_zero] using he
    rw [hne]
    simp only [Bool.false_eq_true, if_false, if_neg he, if_neg hlen]
    rw [count_nonempty_eq (suggestedColumnsFor (toLowerStr q) s.tables s.naming_patterns) sts]
    rw [min_comm, List.length_map]
    congr 1
    ring

/-! ## Helper lemmas: schema analysis under per-table failures -/

theorem analyze_tables_lookup (db : DbOracle) (nm : Str) (h : nm ∈ db.tableNames) :
    (analyze_database db).tables.lookup nm
      = some { _analyze_table (db.tableOracle nm) with purpose := _detect_table_purpose nm } := by
  simp only [analyze_database]
  exact lookup_map_name
    (fun n => { _analyze_table (db.tableOracle n) with purpose := _detect_table_purpose n })
    db.tableNames nm h

theorem analyze_table_failureDefaults (o : TableOracle)
    (h : o.colsRes = .error () ∨ o.fkRes = .error ()) :
    _analyze_table o = defaultTableData := by
  rcases h with h | h
  · simp [_analyze_table, h]
  · cases hc : o.colsRes with
    | error e => simp [_analyze_table, hc]
    | ok cols => simp [_analyze_table, hc, h]

theorem analyze_table_okParts (o : TableOracle)
    (hc : ¬ o.colsRes = .error ()) (hf : ¬ o.fkRes = .error ()) :
    _analyze_table o = tableFromParts (okD o.colsRes []) (okD o.fkRes [])
      (okD o.sampleRes []) (okD o.countRes 0) := by
  cases hcc : o.colsRes with
  | error e => exact absurd (by cases e; exact hcc) hc
  | ok cols =>
    cases hff : o.fkRes with
    | error e => exact absurd (by cases e; exact hff) hf
    | ok fks => simp [_analyze_table, hcc, hff, okD]

/-! ## Helper lemmas: suggested-columns bounds and confidence bounds -/

theorem mem_suggested_columns {query : Str} {schema_info : SchemaInfo}
    {pr : Str × List ColumnSuggestion}
    (hpr : pr ∈ (map_natural_language_to_schema query schema_info).suggested_columns)
    {c : ColumnSuggestion} (hc : c ∈ pr.2) :
    1 < c.relevance ∧ c.relevance ≤ 10 := by
  simp only [map_natural_language_to_schema, List.mem_map] at hpr
  obtain ⟨ts, hts, rfl⟩ := hpr
  simp only at hc
  unfold suggestedColumnsFor at hc
  split at hc
  · rw [mem_sortDesc] at hc
    exact mem_columnCandidatesFor hc
  · simp at hc

theorem map_confidence_bounds (q : Str) (s : SchemaInfo) :
    0 ≤ (map_natural_language_to_schema q s).confidence ∧
      (map_natural_language_to_schema q s).confidence ≤ 1 := by
  have hmem : ∀ t ∈ (map_natural_language_to_schema q s).suggested_tables, 0 ≤ t.relevance := by
    intro t ht
    have := (mem_suggested_tables ht).1
    omega
  have heq : (map_natural_language_to_schema q s).confidence
      = _calculate_mapping_confidence (map_natural_language_to_schema q s).suggested_tables
          (map_natural_language_to_schema q s).suggested_columns
          (map_natural_language_to_schema q s).query_type := rfl
  rw [heq]
  exact confidence_bounds _ _ _ hmem

/-! ## Helper lemmas: the LIMIT clause of ranking queries -/

theorem build_sql_no_limit (p : SqlParts) (h : p.limit = none) :
    _build_sql_string p = sqlBeforeLimit p := by
  simp [_build_sql_string, h]

theorem build_sql_limit (p : SqlParts) (h : p.limit.getD 0 ≠ 0) :
    _build_sql_string p = sqlBeforeLimit p ++ str " LIMIT " ++ natToStr (p.limit.getD 0) := by
  cases hl : p.limit with
  | none => rw [hl] at h; simp at h
  | some n =>
    rw [hl] at h
    simp only [Option.getD_some] at h
    have hn : (n == 0) = false := by simpa using h
    simp [_build_sql_string, hl, hn]

theorem generate_parts_ranking_limit (natural_query : Str) (mapping : QueryMapping)
    (p : SqlParts) (hqt : mapping.query_type = str "ranking")
    (hgen : generate_sql_parts natural_query mapping = some p) :
    p.limit = (if (substr (str "top") (toLowerStr natural_query)
        || substr (str "bottom") (toLowerStr natural_query)) = true
      then some ((findTopBottomLimit (toLowerStr natural_query)).getD 10) else none) := by
  cases hst : mapping.suggested_tables with
  | nil =>
    simp only [generate_sql_parts, hst] at hgen
    exact Option.noConfusion hgen
  | cons primary rest =>
    simp only [generate_sql_parts, hst, hqt,
      show (str "ranking" == str "count") = false from by decide,
      show (str "ranking" == str "aggregation") = false from by decide,
      show (str "ranking" == str "sum") = false from by decide,
      show (str "ranking" == str "ranking") = true from by decide,
      Bool.false_eq_true, if_false, if_true] at hgen
    rw [Option.some.injEq] at hgen
    subst hgen
    by_cases hg : (substr (str "top") (toLowerStr natural_query)
        || substr (str "bottom") (toLowerStr natural_query)) = true
    · simp only [hg, if_true, apply_ite SqlParts.limit]
      cases hfind : findTopBottomLimit (toLowerStr natural_query) <;>
        simp [hfind]
    · have hg' : (substr (str "top") (toLowerStr natural_query)
          || substr (str "bottom") (toLowerStr natural_query)) = false := by
        simpa using hg
      simp [hg', apply_ite SqlParts.limit]

/-! ## Claim theorems -/

/-- C1: for every query and schema snapshot, every table relevance returned
by `_calculate_table_relevance` and every column relevance returned by
`_calculate_column_relevance` lies in [0,1] (in tenths: [0,10]), and in the
`QueryMapping` produced by `map_natural_language_to_schema` the confidence
and all stored relevances lie in [0,1] as well. -/
theorem C1_unit_interval :
    (∀ (query table_name : Str) (table_info : TableData) (patterns : NamingPatterns),
      0 ≤ _calculate_table_relevance query table_name table_info patterns ∧
        _calculate_table_relevance query table_name table_info patterns ≤ 10) ∧
    (∀ (query column_name : Str) (column_info : ColumnInfo) (patterns : NamingPatterns),
      0 ≤ _calculate_column_relevance query column_name column_info patterns ∧
        _calculate_column_relevance query column_name column_info patterns ≤ 10) ∧
    (∀ (query : Str) (schema_info : SchemaInfo),
      (0 ≤ (map_natural_language_to_schema query schema_info).confidence ∧
        (map_natural_language_to_schema query schema_info).confidence ≤ 1) ∧
      (∀ t ∈ (map_natural_language_to_schema query schema_info).suggested_tables,
        0 ≤ t.relevance ∧ t.relevance ≤ 10) ∧
      (∀ pr ∈ (map_natural_language_to_schema query schema_info).suggested_columns,
        ∀ c ∈ pr.2, 0 ≤ c.relevance ∧ c.relevance ≤ 10)) := by
  refine ⟨tableRelevance_bounds, columnRelevance_bounds, ?_⟩
  intro query schema_info
  refine ⟨map_confidence_bounds query schema_info, ?_, ?_⟩
  · intro t ht
    have h := mem_suggested_tables ht
    exact ⟨by omega, h.2⟩
  · intro pr hpr c hc
    have h := mem_suggested_columns hpr hc
    exact ⟨by omega, h.2⟩

/-- C2: in every produced `QueryMapping`, `suggested_tables` is sorted in
descending relevance order with every entry above the 0.2 threshold (2
tenths), each per-table `suggested_columns` list is sorted in descending
relevance order with every entry above the 0.1 threshold (1 tenth), and
both sorts are stable: entries of any fixed relevance keep the original
schema-discovery order of the candidate lists. -/
theorem C2_sorted_thresholds_stable :
    ∀ (query : Str) (schema_info : SchemaInfo),
      ((map_natural_language_to_schema query schema_info).suggested_tables.Pairwise
        (fun a b => b.relevance ≤ a.relevance)) ∧
      (∀ t ∈ (map_natural_language_to_schema query schema_info).suggested_tables,
        2 < t.relevance) ∧
      (∀ v : Int, (map_natural_language_to_schema query schema_info).suggested_tables.filter
          (fun t => t.relevance == v)
        = (tableCandidates (toLowerStr query) schema_info.tables
            schema_info.naming_patterns).filter (fun t => t.relevance == v)) ∧
      (∀ pr ∈ (map_natural_language_to_schema query schema_info).suggested_columns,
        pr.2.Pairwise (fun a b => b.relevance ≤ a.relevance) ∧
        (∀ c ∈ pr.2, 1 < c.relevance) ∧
        (∀ v : Int, pr.2.filter (fun c => c.relevance == v)
          = (rawColumnCandidates query schema_info pr.1).filter
              (fun c => c.relevance == v))) := by
  intro query schema_info
  refine ⟨?_, ?_, ?_, ?_⟩
  · exact pairwise_sortDesc (fun t : TableSuggestion => t.relevance) _
  · intro t ht
    exact (mem_suggested_tables ht).1
  · intro v
    exact filter_sortDesc (fun t : TableSuggestion => t.relevance) v _
  · intro pr hpr
    refine ⟨?_, fun c hc => (mem_suggested_columns hpr hc).1, ?_⟩
    · simp only [map_natural_language_to_schema, List.mem_map] at hpr
      obtain ⟨ts, hts, rfl⟩ := hpr
      simp only
      unfold suggestedColumnsFor
      split
      · exact pairwise_sortDesc (fun c : ColumnSuggestion => c.relevance) _
      · simp
    · intro v
      simp only [map_natural_language_to_schema, List.mem_map] at hpr
      obtain ⟨ts, hts, rfl⟩ := hpr
      simp only [rawColumnCandidates]
      unfold suggestedColumnsFor
      split
      · exact filter_sortDesc (fun c : ColumnSuggestion => c.relevance) v _
      · rfl

/-- C3: `_calculate_mapping_confidence` returns 0 on an empty
`suggested_tables`, and on every produced mapping the confidence equals the
spec's formula: min(1, 0.4 × mean table relevance + 0.3 × fraction of
suggested tables with at least one relevant column + 0.3 × (0.8 if the
query type is not `general`, else 0.4)). -/
theorem C3_confidence_formula :
    (∀ (suggested_columns : List (Str × List ColumnSuggestion)) (query_type : Str),
      _calculate_mapping_confidence [] suggested_columns query_type = 0) ∧
    (∀ (query : Str) (schema_info : SchemaInfo),
      (map_natural_language_to_schema query schema_info).confidence
        = confidenceSpec (map_natural_language_to_schema query schema_info)) := by
  constructor
  · intro suggested_columns query_type
    simp [_calculate_mapping_confidence]
  · exact map_confidence_eq

/-- C4: `_classify_query_type` implements exactly the spec's priority-ordered
first-match keyword classification over the lower-cased query. -/
theorem C4_classifier_priority :
    ∀ query : Str, _classify_query_type query = classifySpec query :=
  classify_eq_spec

/-- C5 (amended): the table relevance equals the clamp to [0,1] of
name credit 0.8, plus 0.7 per canonical concept whose synonym list contains
the table name and one of whose synonyms occurs in the query (not at most
once overall), plus purpose credit 0.6, plus 0.2 per column-name match with
a 0.3 bonus for more than two matches (all in tenths). -/
theorem C5_table_relevance_formula :
    ∀ (query table_name : Str) (table_info : TableData) (patterns : NamingPatterns),
      _calculate_table_relevance query table_name table_info patterns
        = tableRelevanceSpec query table_name table_info patterns :=
  tableRelevance_eq_spec

/-- C5 (counterexample): with a dictionary listing the table name under two
canonical concepts, the synonym credit is granted twice, so the claimed
at-most-once formula is wrong: the code yields 1.0 (10 tenths) where the
claimed formula yields 0.7 (7 tenths). -/
theorem C5_counterexample :
    _calculate_table_relevance (str "foo bar") (str "tbl") plainTable doubleCreditPatterns = 10 ∧
    tableRelevanceClaimed (str "foo bar") (str "tbl") plainTable doubleCreditPatterns = 7 ∧
    ¬ _calculate_table_relevance (str "foo bar") (str "tbl") plainTable doubleCreditPatterns
        = tableRelevanceClaimed (str "foo bar") (str "tbl") plainTable doubleCreditPatterns := by
  refine ⟨by decide, by decide, by decide⟩

/-- C6 (amended): for the schema with the `employees` table (numeric
`salary` column of monetary purpose) and the query "how many employees are
there?", the query type is `count` and the synthesized SQL is exactly
`SELECT COUNT(*) as count FROM employees` (with the alias the source
emits). -/
theorem C6_count_query_sql :
    _classify_query_type (str "how many employees are there?") = str "count" ∧
    (pipeline (str "how many employees are there?") employeesSchema).2
      = some (str "SELECT COUNT(*) as count FROM employees") := by
  refine ⟨by decide, by decide⟩

/-- C6 (counterexample): the synthesized SQL is not the claimed
`SELECT COUNT(*) FROM employees`: the source aliases the count column. -/
theorem C6_counterexample :
    (pipeline (str "how many employees are there?") employeesSchema).2
        = some (str "SELECT COUNT(*) as count FROM employees") ∧
    ¬ (pipeline (str "how many employees are there?") employeesSchema).2
        = some (str "SELECT COUNT(*) FROM employees") := by
  refine ⟨by decide, by decide⟩

/-- C7 (amended): for a ranking query whose SQL is synthesized, the limit
is governed by the literal substrings `top`/`bottom`: if neither occurs in
the lower-cased query there is no LIMIT at all (not a default of 10); if
one occurs, the limit is the number of the first `top N`/`bottom N` phrase
when present and 10 otherwise, and any nonzero limit N is rendered as a
final ` LIMIT N` on the SQL text. -/
theorem C7_ranking_limit :
    ∀ (natural_query : Str) (mapping : QueryMapping) (p : SqlParts),
      mapping.query_type = str "ranking" →
      generate_sql_parts natural_query mapping = some p →
      ((substr (str "top") (toLowerStr natural_query)
          || substr (str "bottom") (toLowerStr natural_query)) = false →
        p.limit = none ∧ _build_sql_string p = sqlBeforeLimit p) ∧
      ((substr (str "top") (toLowerStr natural_query)
          || substr (str "bottom") (toLowerStr natural_query)) = true →
        p.limit = some ((findTopBottomLimit (toLowerStr natural_query)).getD 10)) ∧
      (p.limit.getD 0 ≠ 0 →
        _build_sql_string p = sqlBeforeLimit p ++ str " LIMIT " ++ natToStr (p.limit.getD 0)) := by
  intro natural_query mapping p hqt hgen
  have hlim := generate_parts_ranking_limit natural_query mapping p hqt hgen
  refine ⟨?_, ?_, fun h => build_sql_limit p h⟩
  · intro hg
    have hnone : p.limit = none := by rw [hlim, hg]; simp
    exact ⟨hnone, build_sql_no_limit p hnone⟩
  · intro hg
    rw [hlim, hg]
    simp

/-- C7 (witness): the ranking query "show top 5 highest paid employees"
instantiates the amended limit behaviour with an explicit `top 5`. -/
theorem C7_ranking_limit_witness :
    rankMapping.query_type = str "ranking" ∧
    generate_sql_parts (str "show top 5 highest paid employees") rankMapping = some rankParts ∧
    (((substr (str "top") (toLowerStr (str "show top 5 highest paid employees")))
        || substr (str "bottom") (toLowerStr (str "show top 5 highest paid employees"))) = false →
      rankParts.limit = none ∧ _build_sql_string rankParts = sqlBeforeLimit rankParts) ∧
    (((substr (str "top") (toLowerStr (str "show top 5 highest paid employees")))
        || substr (str "bottom") (toLowerStr (str "show top 5 highest paid employees"))) = true →
      rankParts.limit
        = some ((findTopBottomLimit (toLowerStr (str "show top 5 highest paid employees"))).getD 10)) ∧
    (rankParts.limit.getD 0 ≠ 0 →
      _build_sql_string rankParts
        = sqlBeforeLimit rankParts ++ str " LIMIT " ++ natToStr (rankParts.limit.getD 0)) := by
  refine ⟨by decide, by decide, ?_⟩
  exact C7_ranking_limit (str "show top 5 highest paid employees") rankMapping rankParts
    (by decide) (by decide)

/-- C7 (counterexample): "highest paid employees" is a ranking query whose
SQL is synthesized, contains no `top N`/`bottom N` phrase, and the
generated SQL carries no LIMIT clause at all, contradicting the claimed
default of 10. -/
theorem C7_counterexample :
    _classify_query_type (str "highest paid employees") = str "ranking" ∧
    (pipeline (str "highest paid employees") employeesSchema).2
      = some (str "SELECT salary FROM employees ORDER BY salary DESC") ∧
    substr (str "LIMIT") (str "SELECT salary FROM employees ORDER BY salary DESC") = false := by
  refine ⟨by decide, by decide, by decide⟩

/-- C8: a per-table introspection failure is isolated: each table's entry in
the analyzed schema depends only on that table's own fetches; a failing
column or foreign-key fetch degrades that table to the all-default entry
(with its detected purpose still attached); a failure of only the sample
fetch yields an empty sample and a failure of only the row-count fetch
yields row count 0, without aborting the table's analysis. -/
theorem C8_isolation :
    ∀ (db : DbOracle) (nm : Str), nm ∈ db.tableNames →
      ((analyze_database db).tables.lookup nm
        = some { _analyze_table (db.tableOracle nm) with
                   purpose := _detect_table_purpose nm }) ∧
      ((db.tableOracle nm).colsRes = .error () ∨ (db.tableOracle nm).fkRes = .error () →
        _analyze_table (db.tableOracle nm) = defaultTableData) ∧
      (¬ (db.tableOracle nm).colsRes = .error () → ¬ (db.tableOracle nm).fkRes = .error () →
        _analyze_table (db.tableOracle nm)
          = tableFromParts (okD (db.tableOracle nm).colsRes [])
              (okD (db.tableOracle nm).fkRes [])
              (okD (db.tableOracle nm).sampleRes [])
              (okD (db.tableOracle nm).countRes 0)) :=
  fun db nm h =>
    ⟨analyze_tables_lookup db nm h,
     fun hfail => analyze_table_failureDefaults _ hfail,
     fun hc hf => analyze_table_okParts _ hc hf⟩

/-- C8 (witness): in the two-table database where every fetch of `badtable`
fails, `badtable` degrades to the default entry while the analysis
succeeds. -/
theorem C8_isolation_witness :
    (str "badtable") ∈ mixedDb.tableNames ∧
    ((analyze_database mixedDb).tables.lookup (str "badtable")
      = some { _analyze_table (mixedDb.tableOracle (str "badtable")) with
                 purpose := _detect_table_purpose (str "badtable") }) ∧
    ((mixedDb.tableOracle (str "badtable")).colsRes = .error ()
        ∨ (mixedDb.tableOracle (str "badtable")).fkRes = .error () →
      _analyze_table (mixedDb.tableOracle (str "badtable")) = defaultTableData) ∧
    (¬ (mixedDb.tableOracle (str "badtable")).colsRes = .error () →
     ¬ (mixedDb.tableOracle (str "badtable")).fkRes = .error () →
      _analyze_table (mixedDb.tableOracle (str "badtable"))
        = tableFromParts (okD (mixedDb.tableOracle (str "badtable")).colsRes [])
            (okD (mixedDb.tableOracle (str "badtable")).fkRes [])
            (okD (mixedDb.tableOracle (str "badtable")).sampleRes [])
            (okD (mixedDb.tableOracle (str "badtable")).countRes 0)) :=
  ⟨by decide, C8_isolation mixedDb (str "badtable") (by decide)⟩

/-- C9: the mapping-then-SQL pipeline is a pure function of the query text
and the schema snapshot: two invocations on equal inputs produce an
identical `QueryMapping` and identical SQL text. -/
theorem C9_pipeline_deterministic :
    ∀ (q1 q2 : Str) (s1 s2 : SchemaInfo), q1 = q2 → s1 = s2 →
      pipeline q1 s1 = pipeline q2 s2 := by
  intro q1 q2 s1 s2 hq hs
  rw [hq, hs]

/-- C9 (witness): two runs of the pipeline on the concrete employees schema
and the same query agree. -/
theorem C9_pipeline_deterministic_witness :
    pipeline (str "how many employees are there?") employeesSchema
      = pipeline (str "how many employees are there?") employeesSchema :=
  C9_pipeline_deterministic _ _ _ _ rfl rfl

/-- C10: any query whose lower-cased text contains "total amount" also
contains the higher-priority count trigger "total", so it is classified as
`count`, never as `sum`. -/
theorem C10_total_amount_is_count :
    ∀ query : Str, substr (str "total amount") (toLowerStr query) = true →
      _classify_query_type query = str "count" ∧
        _classify_query_type query ≠ str "sum" := by
  intro query h
  have htot : substr (str "total") (toLowerStr query) = true :=
    substr_trans (by decide) h
  have hany : ([str "count", str "how many", str "number of", str "total"].any
      (fun k => substr k (toLowerStr query))) = true := by
    simp only [List.any_eq_true]
    exact ⟨str "total", by decide, htot⟩
  have hc : _classify_query_type query = str "count" := by
    unfold _classify_query_type
    dsimp only
    rw [if_pos hany]
  exact ⟨hc, by rw [hc]; decide⟩

/-- C10 (witness): "show total amount of sales" contains "total amount" and
is classified as `count`, not `sum`. -/
theorem C10_total_amount_is_count_witness :
    substr (str "total amount") (toLowerStr (str "show total amount of sales")) = true ∧
    _classify_query_type (str "show total amount of sales") = str "count" ∧
    _classify_query_type (str "show total amount of sales") ≠ str "sum" :=
  ⟨by decide, (C10_total_amount_is_count (str "show total amount of sales") (by decide)).1,
    (C10_total_amount_is_count (str "show total amount of sales") (by decide)).2⟩

/-- C1 (witness): the bounds hold at the concrete employees mapping and its
suggested `employees` table. -/
theorem C1_unit_interval_witness :
    ((⟨str "employees", 10, str "employees"⟩ : TableSuggestion)
        ∈ (map_natural_language_to_schema (str "how many employees are there?")
            employeesSchema).suggested_tables) ∧
    (0 ≤ (⟨str "employees", 10, str "employees"⟩ : TableSuggestion).relevance ∧
      (⟨str "employees", 10, str "employees"⟩ : TableSuggestion).relevance ≤ 10) :=
  ⟨by decide,
    (C1_unit_interval.2.2 (str "how many employees are there?") employeesSchema).2.1
      ⟨str "employees", 10, str "employees"⟩ (by decide)⟩

/-- C2 (witness): the 0.2 threshold holds at the concrete employees mapping
and its suggested `employees` table. -/
theorem C2_sorted_thresholds_stable_witness :
    2 < (⟨str "employees", 10, str "employees"⟩ : TableSuggestion).relevance :=
  (C2_sorted_thresholds_stable (str "how many employees are there?") employeesSchema).2.1
    ⟨str "employees", 10, str "employees"⟩ (by decide)
